import Mathlib

/-!
Verification of the resource-lifecycle coordinator of the image-gen-pipe-v2
services, shallowly embedded from the Python sources.

Embedding conventions:
* A Python callable that either returns a value or raises an exception is
  modelled as an `Except String α` outcome (the string is the exception
  message). Callables passed around as data (fallback loaders, LoRA
  attachment, face detection) are modelled as predetermined outcomes or as
  outcome oracles, since their effects are opaque to the code under study.
* The filesystem is modelled as the list of existing file paths; `Path.exists`
  is list membership and `Path.resolve` is the identity (no symlinks).
* Wall-clock effects (`time.sleep`, timing metadata) are recorded as trace
  events or omitted; `print` logging is not modelled.
* Where control flow must be observed (which fallback entries were invoked,
  how many attempts and cleanups a load performed) the embedded function also
  returns a trace of events, mirroring the exact order of the source.
-/

namespace EncoderLoading

/-- Embedding of `EncoderConfig` from `src/services/encoder_loading.py`.
`path_exists` models `Path(env_var_path).exists()`; `local_loader_result`
is the predetermined outcome of `config.local_loader(config.env_var_path)`;
each `fallback_chain` entry is the predetermined outcome of that zero-argument
fallback loader. -/
structure EncoderConfig (α : Type) where
  name : String
  env_var_path : Option String
  path_exists : Bool := false
  local_loader_result : Except String α := Except.error "unused"
  fallback_chain : List (Except String α)
  dtype_converter : Option (α → α) := none

/-- The body of the `if config.env_var_path:` try-block of
`load_encoder_with_fallbacks`: the explicit existence pre-check
(raising `FileNotFoundError` with the path) followed by the local loader. -/
def localAttempt {α : Type} (cfg : EncoderConfig α) (p : String) : Except String α :=
  if cfg.path_exists then cfg.local_loader_result
  else Except.error ("Path does not exist: " ++ p)

/-- The `for i, fallback_loader in enumerate(config.fallback_chain)` loop:
returns the first successful fallback result (or `none` if all fail) together
with the 0-based indices of the fallback entries that were invoked, in
invocation order. -/
def tryFallbacks {α : Type} : List (Except String α) → Nat → Option α × List Nat
  | [], _ => (none, [])
  | r :: rest, i =>
    match r with
    | Except.ok e => (some e, [i])
    | Except.error _ =>
      let t := tryFallbacks rest (i + 1)
      (t.1, i :: t.2)

/-- `config.dtype_converter` application (only on the local path, as in the
source). -/
def applyConverter {α : Type} (cfg : EncoderConfig α) (e : α) : α :=
  match cfg.dtype_converter with
  | some f => f e
  | none => e

/-- Embedding of `load_encoder_with_fallbacks` from
`src/services/encoder_loading.py` (lines 159-219). Returns the loaded
encoder (or `none` when everything failed) paired with the indices of the
fallback-chain entries that were invoked. -/
def load_encoder_with_fallbacks {α : Type} (cfg : EncoderConfig α) :
    Option α × List Nat :=
  match cfg.env_var_path with
  | none => tryFallbacks cfg.fallback_chain 0
  | some p =>
    match localAttempt cfg p with
    | Except.ok e => (some (applyConverter cfg e), [])
    | Except.error _ => tryFallbacks cfg.fallback_chain 0

/-- Embedding of the result of `load_text_encoders` (lines 299-350): both
encoders are loaded with fallbacks, then a `None` result raises a fixed
message naming only the encoder kind. -/
def load_text_encoders {α : Type} (clip t5 : EncoderConfig α) :
    Except String (α × α) :=
  match (load_encoder_with_fallbacks clip).1, (load_encoder_with_fallbacks t5).1 with
  | none, _ => Except.error "Failed to load CLIP-L encoder after all fallbacks exhausted"
  | some _, none => Except.error "Failed to load T5-XXL encoder after all fallbacks exhausted"
  | some a, some b => Except.ok (a, b)

/-- The parameter list of `def load_text_encoders(torch_dtype)` in
`src/services/encoder_loading.py` (line 299). -/
def load_text_encoders_params : List String := ["torch_dtype"]

/-- The parameter list of `def load_vae_with_fallback(torch_dtype)` in
`src/services/encoder_loading.py` (line 353). -/
def load_vae_with_fallback_params : List String := ["torch_dtype"]

/-- The field names of the `EncoderConfig` dataclass (lines 21-42). -/
def encoder_config_fields : List String :=
  ["name", "env_var_path", "local_loader", "fallback_chain", "dtype_converter"]

/-- A Python keyword argument is accepted only if it names a declared
parameter of the callee. -/
def accepts_kwarg (params : List String) (kw : String) : Bool :=
  params.contains kw

end EncoderLoading

namespace PyStr

/-!
Executable (structurally recursive) models of the Python string operations
the services use: `str.lower()`, `in`, `str.endswith`, `str.split` and
`sep.join`. They operate on the character lists underlying `String`, so a
witness can evaluate them on concrete inputs.
-/

/-- Lowercasing as performed by `str.lower()` (the texts involved are
ASCII). -/
def lowerStr (s : String) : String := String.mk (s.data.map Char.toLower)

/-- Does the first list start with the second? -/
def startsWithList : List Char → List Char → Bool
  | _, [] => true
  | [], _ :: _ => false
  | a :: as, b :: bs => a == b && startsWithList as bs

/-- Is `needle` a contiguous sublist of the second argument? -/
def subListOf (needle : List Char) : List Char → Bool
  | [] => needle.isEmpty
  | c :: t => startsWithList (c :: t) needle || subListOf needle t

/-- Python `needle in hay` on strings. -/
def strHasSub (hay needle : String) : Bool := subListOf needle.data hay.data

/-- Python `s.endswith(suffix)`. -/
def strEndsWith (s suffix : String) : Bool :=
  startsWithList s.data.reverse suffix.data.reverse

/-- Python `s.split(sep)` for a one-character separator, on character
lists. -/
def splitOnChar (sep : Char) : List Char → List (List Char)
  | [] => [[]]
  | c :: t =>
    match splitOnChar sep t with
    | [] => [[]]
    | h :: rest => if c == sep then [] :: h :: rest else (c :: h) :: rest

/-- Python `sep.join(parts)` for a one-character separator, on character
lists. -/
def joinWith (sep : Char) : List (List Char) → List Char
  | [] => []
  | [x] => x
  | x :: y :: rest => x ++ sep :: joinWith sep (y :: rest)

end PyStr

namespace LlmService

open PyStr

/-- The retryable-resource-exhaustion classifier from
`src/services/llm_service.py` lines 209-216: `is_memory_error` is true iff
the lowercased exception text contains one of the fixed signatures. -/
def is_memory_error (e : String) : Bool :=
  let s := lowerStr e
  strHasSub s "llama_context" || strHasSub s "context" ||
    strHasSub s "failed to load model from file" ||
    strHasSub s "out of memory" || strHasSub s "oom"

/-- Observable events of one `load_model()` call: a `_try_load(gpu_layers)`
attempt, a `_cuda_cleanup()` invocation, or a `time.sleep(seconds)` backoff. -/
inductive LoadEvent where
  | attempt (gpu_layers : Int)
  | cleanup
  | backoff (seconds : Nat)
deriving DecidableEq

/-- Embedding of the retry skeleton of `load_model` from
`src/services/llm_service.py` (lines 200-247), entered with the load lock
held and `llm is None`. `n` is `N_GPU_LAYERS`; `o1`, `o2`, `o3` are the
predetermined outcomes of the up-to-three `_try_load` calls (the model is an
opaque `Nat` handle). Returns the propagated result together with the exact
ordered trace of attempts, cleanups and backoffs the source performs. -/
def load_model (n : Int) (o1 o2 o3 : Except String Nat) :
    Except String Nat × List LoadEvent :=
  match o1 with
  | Except.ok m => (Except.ok m, [LoadEvent.attempt n])
  | Except.error e1 =>
    if is_memory_error e1 then
      match o2 with
      | Except.ok m =>
        (Except.ok m,
         [LoadEvent.attempt n, LoadEvent.cleanup, LoadEvent.backoff 3, LoadEvent.attempt n])
      | Except.error _ =>
        let fallback_layers : Int := max 1 (n - 8)
        match o3 with
        | Except.ok m =>
          (Except.ok m,
           [LoadEvent.attempt n, LoadEvent.cleanup, LoadEvent.backoff 3, LoadEvent.attempt n,
            LoadEvent.cleanup, LoadEvent.backoff 2, LoadEvent.attempt fallback_layers])
        | Except.error e3 =>
          (Except.error e3,
           [LoadEvent.attempt n, LoadEvent.cleanup, LoadEvent.backoff 3, LoadEvent.attempt n,
            LoadEvent.cleanup, LoadEvent.backoff 2, LoadEvent.attempt fallback_layers])
    else (Except.error e1, [LoadEvent.attempt n])

/-- The GPU-layer demand of every attempt event, in order. -/
def attemptsOf (tr : List LoadEvent) : List Int :=
  tr.filterMap (fun e => match e with | LoadEvent.attempt l => some l | _ => none)

/-- Number of `_cuda_cleanup()` invocations in the trace. -/
def cleanupCount (tr : List LoadEvent) : Nat :=
  tr.countP (fun e => match e with | LoadEvent.cleanup => true | _ => false)

end LlmService

namespace VlmService

/-- The module-level names bound in `src/services/vlm_service.py` (imports,
configuration constants, globals, request models, functions and endpoints) —
the attributes `hasattr(vlm_service, ...)` can observe. -/
def vlm_service_module_names : List String :=
  ["os", "gc", "time", "base64", "Path", "Optional", "asynccontextmanager",
   "uvicorn", "FastAPI", "HTTPException", "CORSMiddleware", "BaseModel",
   "PORT", "MODEL_REPO", "MODEL_FILE", "CLIP_MODEL_FILE", "MODEL_PATH",
   "N_GPU_LAYERS", "N_CTX", "llm", "chat_handler", "lifespan", "app",
   "CompareRequest", "CompareResponse", "encode_image", "load_model",
   "unload_model", "health_check", "load_model_endpoint",
   "unload_model_endpoint", "compare_images", "download_status"]

end VlmService

namespace Loras

open PyStr

/-!
Scales are Python floats merely carried through the adapter logic (never
computed with), so they are modelled by an opaque type parameter. Witnesses
instantiate it with natural numbers measured in tenths (0.8 becomes 8).
-/

/-- `MAX_LORAS = 4` (both `src/services/flux_service.py` line 43 and
`src/services/modal_diffusion_service.py` line 48). -/
def MAX_LORAS : Nat := 4

/-- POSIX `Path.is_absolute()`. -/
def is_absolute (p : String) : Bool := startsWithList p.data ['/']

/-- `Path` joining (`dir / p`). -/
def joinPath (dir p : String) : String := dir ++ "/" ++ p

/-- `Path.stem`: the final path component without its last suffix. -/
def path_stem (p : String) : String :=
  let base := (splitOnChar '/' p.data).getLastD p.data
  let parts := splitOnChar '.' base
  if parts.length ≤ 1 then String.mk base
  else String.mk (joinWith '.' parts.dropLast)

/-- One entry of a flux `loras` request (a dict with keys `path` and
`scale`); also the modal `LoraConfig` pydantic model (`path`, `scale`). -/
structure LoraReq (σ : Type) where
  path : String
  scale : σ
deriving DecidableEq

/-- One entry of the returned LoRA result list. `error := none` models the
absence of the `error` key; `adapter_name := none` models an
`adapter_name` of `None`. -/
structure LoraResult (σ : Type) where
  path : String
  scale : σ
  adapter_name : Option String
  loaded : Bool
  error : Option String := none
deriving DecidableEq

/-- Path resolution of `flux_service.load_multiple_loras` (lines 490-499):
relative paths are looked up under `LORAS_DIR`, then under
`services/loras`; `resolve()` is the identity in this model. -/
def flux_resolve (fs : List String) (loras_dir p : String) : String :=
  if is_absolute p then p
  else
    let f1 := joinPath loras_dir p
    if fs.contains f1 then f1 else joinPath "services/loras" p

/-- One iteration body of the `for i, lora_config in enumerate(loras)` loop
of `flux_service.load_multiple_loras` (lines 486-551): path resolution,
existence and `.safetensors` validation, then attachment; produces the
`loaded_loras` entry appended for this request. `fs` is the set of existing
files and `attach` the predetermined outcome of
`pipeline.load_lora_weights` per file path. -/
def flux_step {σ : Type} (fs : List String) (loras_dir : String)
    (attach : String → Except String Unit) (i : Nat) (r : LoraReq σ) : LoraResult σ :=
  if fs.contains (flux_resolve fs loras_dir r.path) then
    if strEndsWith (flux_resolve fs loras_dir r.path) ".safetensors" then
      match attach (flux_resolve fs loras_dir r.path) with
      | Except.ok _ =>
        ⟨r.path, r.scale,
         some ("lora_" ++ toString i ++ "_" ++ path_stem (flux_resolve fs loras_dir r.path)),
         true, none⟩
      | Except.error e =>
        ⟨r.path, r.scale,
         some ("lora_" ++ toString i ++ "_" ++ path_stem (flux_resolve fs loras_dir r.path)),
         false, some e⟩
    else ⟨r.path, r.scale, none, false, some "Must be .safetensors format"⟩
  else
    ⟨r.path, r.scale, none, false,
     some ("File not found: " ++ flux_resolve fs loras_dir r.path)⟩

/-- The full loop: each request contributes its `flux_step` entry to
`loaded_loras`; exactly the successfully attached entries also append their
adapter name to `adapter_names` and their scale to `adapter_weights`
(mirroring the `adapter_names.append`/`adapter_weights.append` calls in the
success branch). -/
def flux_loop {σ : Type} (fs : List String) (loras_dir : String)
    (attach : String → Except String Unit) :
    Nat → List (LoraReq σ) → List (LoraResult σ) × List String × List σ
  | _, [] => ([], [], [])
  | i, r :: rest =>
    let e := flux_step fs loras_dir attach i r
    let t := flux_loop fs loras_dir attach (i + 1) rest
    if e.loaded then
      (e :: t.1, e.adapter_name.getD "" :: t.2.1, e.scale :: t.2.2)
    else (e :: t.1, t.2.1, t.2.2)

/-- Embedding of `flux_service.load_multiple_loras` (lines 449-562) for a
loaded pipeline: empty input clears and returns `[]`; otherwise the list is
truncated to `MAX_LORAS` and processed entry by entry; the returned
`adapter_weights` component is the combined weight vector passed to the one
final `set_adapters` call. -/
def load_multiple_loras {σ : Type} (fs : List String) (loras_dir : String)
    (attach : String → Except String Unit) (loras : List (LoraReq σ)) :
    List (LoraResult σ) × List String × List σ :=
  if loras.isEmpty then ([], [], [])
  else
    let l2 := if MAX_LORAS < loras.length then loras.take MAX_LORAS else loras
    flux_loop fs loras_dir attach 0 l2

/-- Embedding of the `validate_loras` field validator of
`GenerateRequest` in `src/services/modal_diffusion_service.py`
(lines 179-184): more than `MAX_LORAS` entries raise a `ValueError`. -/
def validate_loras {σ : Type} (v : Option (List (LoraReq σ))) :
    Except String (Option (List (LoraReq σ))) :=
  match v with
  | some l =>
    if MAX_LORAS < l.length then Except.error "Maximum 4 LoRAs allowed"
    else Except.ok (some l)
  | none => Except.ok none

/-- Path resolution of `DiffusionService._load_loras`
(`src/services/modal_diffusion_service.py` lines 634-644): relative paths
resolve under `LORAS_DIR = "/models/loras"`, with `MODELS_DIR = "/models"`
as an existence fallback. -/
def modal_resolve (fs : List String) (p : String) : String :=
  let f0 := if is_absolute p then p else joinPath "/models/loras" p
  if fs.contains f0 then f0
  else
    let alt := joinPath "/models" p
    if fs.contains alt then alt else f0

/-- The per-entry loop of `DiffusionService._load_loras` (lines 630-681):
unlike the flux loop, a validation failure (missing file, wrong suffix)
raises and aborts the whole batch; only attachment failures are recorded
as `loaded=False` entries and skipped. -/
def modal_loop {σ : Type} (fs : List String) (attach : String → Except String Unit) :
    Nat → List (LoraReq σ) →
      Except String (List (LoraResult σ) × List String × List σ)
  | _, [] => Except.ok ([], [], [])
  | i, c :: rest =>
    let f := modal_resolve fs c.path
    if fs.contains f then
      if strEndsWith f ".safetensors" then
        let aname := "lora_" ++ toString i ++ "_" ++ path_stem c.path
        match attach f with
        | Except.ok _ =>
          match modal_loop fs attach (i + 1) rest with
          | Except.ok t =>
            Except.ok (⟨c.path, c.scale, some aname, true, none⟩ :: t.1,
                       aname :: t.2.1, c.scale :: t.2.2)
          | Except.error e => Except.error e
        | Except.error e =>
          match modal_loop fs attach (i + 1) rest with
          | Except.ok t =>
            Except.ok (⟨c.path, c.scale, some aname, false, some e⟩ :: t.1,
                       t.2.1, t.2.2)
          | Except.error e2 => Except.error e2
      else Except.error ("LoRA must be .safetensors format: " ++ c.path)
    else Except.error ("LoRA file not found: " ++ c.path ++ " (checked " ++ f ++ ")")

/-- Embedding of `DiffusionService._load_loras` (lines 601-691) for a loaded
pipeline: `None`/empty clears and returns `[]`; otherwise entries are
processed in order with the semantics of `modal_loop`. -/
def modal_load_loras {σ : Type} (fs : List String) (attach : String → Except String Unit)
    (loras : Option (List (LoraReq σ))) :
    Except String (List (LoraResult σ) × List String × List σ) :=
  match loras with
  | none => Except.ok ([], [], [])
  | some [] => Except.ok ([], [], [])
  | some l => modal_loop fs attach 0 l

end Loras

namespace FaceFixing

/-- `HAS_CODEFORMER = False` (`src/services/face_fixing.py` line 21). -/
def HAS_CODEFORMER : Bool := false

/-- Embedding of the `FaceFixingPipeline` construction state set by
`__init__` (`src/services/face_fixing.py` lines 45-70); the lazy model
slots start out `None` and are irrelevant to instance identity. -/
structure FaceFixingPipeline where
  device : String
  cache_dir : String
  use_codeformer : Bool
deriving DecidableEq

/-- `FaceFixingPipeline.__init__`: the stored device falls back to `cpu`
when CUDA is unavailable; `cache_dir` defaults; CodeFormer use requires
availability. -/
def FaceFixingPipeline.init (cuda_available : Bool) (device : String)
    (cache_dir : Option String) (use_codeformer : Bool) : FaceFixingPipeline :=
  { device := if cuda_available then device else "cpu",
    cache_dir := cache_dir.getD "~/.cache/huggingface/hub",
    use_codeformer := use_codeformer && HAS_CODEFORMER }

/-- Embedding of `get_face_fixer` (lines 415-421): the module-level
singleton `_face_fixer_instance` is threaded explicitly as `inst`; the
call returns the pipeline and the new singleton state. -/
def get_face_fixer (cuda_available : Bool) (device : String)
    (inst : Option FaceFixingPipeline) :
    FaceFixingPipeline × Option FaceFixingPipeline :=
  match inst with
  | some p => (p, some p)
  | none =>
    let p := FaceFixingPipeline.init cuda_available device none false
    (p, some p)

/-- The outcome oracles for one `fix_faces` call: `detect` is the result of
`_detect_faces` (detector loading and detection; faces are opaque handles),
`enhance` the result of `_enhance_face` on the current image and one face,
and `upsc` the result of `_upscale_image` at the given scale. Images are
opaque `Nat` handles; the PIL/numpy/BGR conversions are identities on them. -/
structure FixEnv where
  detect : Except String (List Nat)
  enhance : Nat → Nat → Except String Nat
  upsc : Int → Nat → Except String Nat

/-- The metadata dict built by `fix_faces`; `none` models an absent key.
The wall-clock `time` key is not modelled. -/
structure FaceFixMeta where
  fidelity : Rat
  upscale : Int
  applied : Option Bool := none
  faces_count : Option Nat := none
  reason : Option String := none
  error : Option String := none
  upscale_error : Option String := none
deriving DecidableEq

/-- Embedding of `FaceFixingPipeline.fix_faces`
(`src/services/face_fixing.py` lines 310-408). The whole body runs under
`try/except Exception`: parameter-validation failures and a failing
`_detect_faces` reach the outer handler, which returns the original image
with `applied=False` and `error` set; a per-face `_enhance_face` failure is
caught in the inner loop and skipped; a failing `_upscale_image` is caught
and recorded as `upscale_error` only. -/
def fix_faces (env : FixEnv) (image : Nat) (fidelity : Rat) (upscale : Int) :
    Nat × FaceFixMeta :=
  let m0 : FaceFixMeta := { fidelity := fidelity, upscale := upscale }
  if 0 ≤ fidelity ∧ fidelity ≤ 1 then
    if upscale = 1 ∨ upscale = 2 then
      match env.detect with
      | Except.error e =>
        (image, { m0 with applied := some false, error := some e })
      | Except.ok faces =>
        if faces.isEmpty then
          (image, { m0 with applied := some false,
                            reason := some "no_faces_detected",
                            faces_count := some 0 })
        else
          let enhanced := faces.foldl
            (fun img f => match env.enhance img f with
              | Except.ok i => i
              | Except.error _ => img) image
          if 1 < upscale then
            match env.upsc upscale enhanced with
            | Except.ok u =>
              (u, { m0 with applied := some true, faces_count := some faces.length })
            | Except.error e =>
              (enhanced, { m0 with applied := some true,
                                   faces_count := some faces.length,
                                   upscale_error := some e })
          else
            (enhanced, { m0 with applied := some true, faces_count := some faces.length })
    else
      (image, { m0 with applied := some false,
                        error := some ("upscale must be 1 or 2, got " ++ toString upscale) })
  else
    (image, { m0 with applied := some false,
                      error := some ("fidelity must be between 0.0 and 1.0, got " ++
                        toString fidelity) })

end FaceFixing

namespace EncoderLoading

/-- A VAE config for a local checkpoint whose custom encoder is required:
the configured local file exists but fails to load, and a remote fallback
would succeed. -/
def localOnlyCfg : EncoderConfig Nat :=
  { name := "VAE", env_var_path := some "/ckpt/vae.safetensors",
    path_exists := true,
    local_loader_result :=
      Except.error "Failed to load VAE from /ckpt/vae.safetensors: shape mismatch",
    fallback_chain := [Except.ok 3] }

/-- A CLIP-L config whose local primary and both fallbacks all fail, first
variant of sources and reasons. -/
def exhaustedCfgA : EncoderConfig Nat :=
  { name := "CLIP-L", env_var_path := some "/enc/a/clip_l.safetensors",
    path_exists := true,
    local_loader_result :=
      Except.error "Failed to load CLIP-L from /enc/a/clip_l.safetensors: corrupt header",
    fallback_chain := [Except.error "fallback 1 failed: gated repo",
                       Except.error "fallback 2 failed: no network"] }

/-- Like `exhaustedCfgA` but with a different primary source and different
failure reasons throughout. -/
def exhaustedCfgB : EncoderConfig Nat :=
  { name := "CLIP-L", env_var_path := some "/enc/b/clip.safetensors",
    path_exists := true,
    local_loader_result :=
      Except.error "Failed to load CLIP-L from /enc/b/clip.safetensors: missing tensor",
    fallback_chain := [Except.error "fallback 1 failed: disk full",
                       Except.error "fallback 2 failed: timeout"] }

/-- A T5 config that succeeds from its first fallback. -/
def t5OkCfg : EncoderConfig Nat :=
  { name := "T5-XXL", env_var_path := none, fallback_chain := [Except.ok 5] }

/-- A config with a failing local primary and a 3-entry fallback chain whose
second entry succeeds (the short-circuit scenario). -/
def chainCfg : EncoderConfig Nat :=
  { name := "CLIP-L", env_var_path := some "/enc/clip_l.safetensors",
    path_exists := true,
    local_loader_result :=
      Except.error "Failed to load CLIP-L from /enc/clip_l.safetensors: corrupt",
    fallback_chain := [Except.error "fallback 1 failed",
                       Except.ok 7,
                       Except.error "fallback 3 failed"] }

end EncoderLoading

namespace Loras

/-- Flux-side filesystem for the adapter scenarios: two valid overlay files
under the configured overlay directory. -/
def fluxFs : List String :=
  ["services/loras/valid_a.safetensors", "services/loras/valid_b.safetensors"]

/-- Modal-side filesystem: the same two valid overlays under
`/models/loras`. -/
def modalFs : List String :=
  ["/models/loras/valid_a.safetensors", "/models/loras/valid_b.safetensors"]

/-- Attachment that always succeeds. -/
def okAttach : String → Except String Unit := fun _ => Except.ok ()

/-- The partial-failure scenario: `valid_a(0.8)`, `missing_file(1.0)`,
`valid_b(0.5)`. -/
def partialLoras : List (LoraReq Nat) :=
  [⟨"valid_a.safetensors", 8⟩, ⟨"missing_file.safetensors", 10⟩,
   ⟨"valid_b.safetensors", 5⟩]

/-- A 6-entry overlay request (beyond the cap of 4). -/
def sixLoras : List (LoraReq Nat) :=
  [⟨"l1.safetensors", 1⟩, ⟨"l2.safetensors", 1⟩, ⟨"l3.safetensors", 1⟩,
   ⟨"l4.safetensors", 1⟩, ⟨"l5.safetensors", 1⟩, ⟨"l6.safetensors", 1⟩]

/-- A 5-entry overlay request (beyond the cap of 4). -/
def fiveLoras : List (LoraReq Nat) :=
  [⟨"p1.safetensors", 1⟩, ⟨"p2.safetensors", 1⟩, ⟨"p3.safetensors", 1⟩,
   ⟨"p4.safetensors", 1⟩, ⟨"p5.safetensors", 1⟩]

end Loras

namespace FaceFixing

/-- A run in which one face is detected, enhancement succeeds, and
2x upscaling fails with an out-of-memory error. -/
def upscaleFailEnv : FixEnv :=
  { detect := Except.ok [0],
    enhance := fun img _ => Except.ok (img + 1),
    upsc := fun _ _ => Except.error "CUDA out of memory" }

/-- A run in which the face detector itself fails to load. -/
def detectFailEnv : FixEnv :=
  { detect := Except.error "mediapipe failed to load",
    enhance := fun img _ => Except.ok img,
    upsc := fun _ img => Except.ok img }

end FaceFixing

namespace EncoderLoading

theorem tryFallbacks_all_fail {α : Type} :
    ∀ (chain : List (Except String α)) (i : Nat),
      (∀ r ∈ chain, r.isOk = false) → (tryFallbacks chain i).1 = none
  | [], _, _ => rfl
  | r :: rest, i, h => by
    have hr := h r (List.mem_cons_self r rest)
    cases r with
    | ok e => simp [Except.isOk, Except.toBool] at hr
    | error e =>
      have ih := tryFallbacks_all_fail rest (i + 1) (fun x hx => h x (List.mem_cons_of_mem _ hx))
      simp [tryFallbacks, ih]

theorem tryFallbacks_first_ok {α : Type} (v : α) :
    ∀ (pre : List (Except String α)) (post : List (Except String α)) (i : Nat),
      (∀ r ∈ pre, r.isOk = false) →
      tryFallbacks (pre ++ Except.ok v :: post) i =
        (some v, List.range' i (pre.length + 1))
  | [], post, i, _ => by simp [tryFallbacks, List.range']
  | r :: rest, post, i, h => by
    have hr := h r (List.mem_cons_self r rest)
    cases r with
    | ok e => simp [Except.isOk, Except.toBool] at hr
    | error e =>
      have ih := tryFallbacks_first_ok v rest post (i + 1)
        (fun x hx => h x (List.mem_cons_of_mem _ hx))
      simp [tryFallbacks, ih, List.range']

end EncoderLoading

open EncoderLoading LlmService VlmService Loras FaceFixing

/-- C8: for every ordered fallback chain, entries are attempted strictly in
list order and the first successful entry short-circuits the rest (its result
is returned and no later entry is invoked); a successful primary-source load
returns without invoking any fallback entry. -/
theorem fallback_chain_short_circuit {α : Type} (cfg : EncoderConfig α) (p : String)
    (pre post : List (Except String α)) (v : α)
    (hpath : cfg.env_var_path = some p)
    (hchain : cfg.fallback_chain = pre ++ Except.ok v :: post)
    (hpre : ∀ r ∈ pre, r.isOk = false) :
    ((localAttempt cfg p).isOk = false →
        load_encoder_with_fallbacks cfg = (some v, List.range' 0 (pre.length + 1)) ∧
        ∀ j ∈ (load_encoder_with_fallbacks cfg).2, j ≤ pre.length) ∧
    ((localAttempt cfg p).isOk = true →
        (load_encoder_with_fallbacks cfg).2 = []) := by
  have hfb := tryFallbacks_first_ok v pre post 0 hpre
  have hred : load_encoder_with_fallbacks cfg =
      match localAttempt cfg p with
      | Except.ok e => (some (applyConverter cfg e), [])
      | Except.error _ => tryFallbacks cfg.fallback_chain 0 := by
    unfold load_encoder_with_fallbacks
    rw [hpath]
  constructor
  · intro hfail
    have heq : load_encoder_with_fallbacks cfg = (some v, List.range' 0 (pre.length + 1)) := by
      rw [hred]
      cases hl : localAttempt cfg p with
      | ok e => rw [hl] at hfail; simp [Except.isOk, Except.toBool] at hfail
      | error e => rw [hchain, hfb]
    refine ⟨heq, ?_⟩
    rw [heq]
    intro j hj
    simp [List.mem_range'_1] at hj
    omega
  · intro hok
    rw [hred]
    cases hl : localAttempt cfg p with
    | ok e => rfl
    | error e => rw [hl] at hok; simp [Except.isOk, Except.toBool] at hok

/-- Witness for C8: a failing primary with a 3-entry chain whose second
entry succeeds invokes exactly fallbacks 0 and 1 and returns the second
result of entry 1; entry 2 is never invoked. -/
theorem fallback_chain_short_circuit_witness :
    (localAttempt chainCfg "/enc/clip_l.safetensors").isOk = false ∧
    load_encoder_with_fallbacks chainCfg = (some 7, [0, 1]) ∧
    ∀ j ∈ (load_encoder_with_fallbacks chainCfg).2, j ≤ 1 := by
  have h := fallback_chain_short_circuit chainCfg "/enc/clip_l.safetensors"
    [Except.error "fallback 1 failed"] [Except.error "fallback 3 failed"] 7
    rfl rfl (by decide)
  have h1 := h.1 (by decide)
  exact ⟨by decide, h1.1.trans (by decide), h1.2⟩

/-- C7 counterexample: when the primary and every fallback fail,
`load_encoder_with_fallbacks` returns the bare empty result `none`, and the
error `load_text_encoders` raises is one fixed message — two runs with
different primary sources and different failure reasons produce identical
output, so no aggregate error listing the attempted sources and their
reasons is ever returned. -/
theorem encoder_exhaustion_no_aggregate :
    (load_encoder_with_fallbacks exhaustedCfgA).1 = none ∧
    (load_encoder_with_fallbacks exhaustedCfgB).1 = none ∧
    load_text_encoders exhaustedCfgA t5OkCfg =
      Except.error "Failed to load CLIP-L encoder after all fallbacks exhausted" ∧
    load_text_encoders exhaustedCfgB t5OkCfg = load_text_encoders exhaustedCfgA t5OkCfg := by
  exact ⟨rfl, rfl, rfl, rfl⟩

/-- C7 as amended: whenever the primary source and every fallback entry
fail, `load_encoder_with_fallbacks` returns `None`, and the wrapper
`load_text_encoders` raises a fixed exhaustion message naming only the
encoder kind (not the attempted sources or their failure reasons). -/
theorem encoder_exhaustion_returns_none {α : Type} (clip t5 : EncoderConfig α)
    (hloc : clip.local_loader_result.isOk = false)
    (hfb : ∀ r ∈ clip.fallback_chain, r.isOk = false) :
    (load_encoder_with_fallbacks clip).1 = none ∧
    load_text_encoders clip t5 =
      Except.error "Failed to load CLIP-L encoder after all fallbacks exhausted" := by
  have hnone : (load_encoder_with_fallbacks clip).1 = none := by
    cases hp : clip.env_var_path with
    | none =>
      have hred : load_encoder_with_fallbacks clip = tryFallbacks clip.fallback_chain 0 := by
        unfold load_encoder_with_fallbacks
        rw [hp]
      rw [hred]
      exact tryFallbacks_all_fail _ 0 hfb
    | some p =>
      have hred : load_encoder_with_fallbacks clip =
          match localAttempt clip p with
          | Except.ok e => (some (applyConverter clip e), [])
          | Except.error _ => tryFallbacks clip.fallback_chain 0 := by
        unfold load_encoder_with_fallbacks
        rw [hp]
      rw [hred]
      cases hl : localAttempt clip p with
      | ok e =>
        cases hpe : clip.path_exists with
        | false => simp [localAttempt, hpe] at hl
        | true =>
          simp [localAttempt, hpe] at hl
          rw [hl] at hloc
          simp [Except.isOk, Except.toBool] at hloc
      | error e => exact tryFallbacks_all_fail _ 0 hfb
  refine ⟨hnone, ?_⟩
  unfold load_text_encoders
  rw [hnone]

/-- Witness for C7 as amended, at the concrete exhausted CLIP-L config. -/
theorem encoder_exhaustion_returns_none_witness :
    (load_encoder_with_fallbacks exhaustedCfgA).1 = none ∧
    load_text_encoders exhaustedCfgA t5OkCfg =
      Except.error "Failed to load CLIP-L encoder after all fallbacks exhausted" :=
  encoder_exhaustion_returns_none exhaustedCfgA t5OkCfg (by decide) (by decide)

/-- C1 (code bug): the `load_pipeline` local-checkpoint path calls
`load_text_encoders(..., require_local=...)` and
`load_vae_with_fallback(..., require_local=...)`, but neither function in
`src/services/encoder_loading.py` declares such a parameter (the call raises
`TypeError`), `EncoderConfig` has no require-local field, and the loader
itself has no local-only mode: with a failing local primary it invokes the
fallback chain (entry 0) and returns the fallback result instead of
propagating an error naming the primary source. -/
theorem flux_require_local_call_mismatch :
    accepts_kwarg load_text_encoders_params "require_local" = false ∧
    accepts_kwarg load_vae_with_fallback_params "require_local" = false ∧
    encoder_config_fields.contains "requireLocalOnly" = false ∧
    (load_encoder_with_fallbacks localOnlyCfg).1 = some 3 ∧
    (load_encoder_with_fallbacks localOnlyCfg).2 = [0] := by
  decide

/-- C2 (code bug): `src/services/vlm_service.py` binds no `inference_lock`
at module level — there is no inference gate at all around
`create_chat_completion` — even though the repository test
`test_vlm_service_concurrency.py::test_inference_lock_exists` requires one. -/
theorem vlm_inference_gate_missing :
    vlm_service_module_names.contains "inference_lock" = false := by
  decide

/-- C3: when the first load attempt fails with a retryable
resource-exhaustion error and the second identical-demand attempt also
fails, `load_model` makes exactly 3 attempts with exactly 2 cleanup
invocations between them, and (with the configured demand above 1 layer)
the third attempt runs at strictly reduced demand `max 1 (n - 8)`. -/
theorem llm_retry_then_degrade (n : Int) (o1 o2 o3 : Except String Nat) (e1 e2 : String)
    (h1 : o1 = Except.error e1) (hm : is_memory_error e1 = true)
    (h2 : o2 = Except.error e2) (hn : 1 < n) :
    (load_model n o1 o2 o3).2 =
      [LoadEvent.attempt n, LoadEvent.cleanup, LoadEvent.backoff 3, LoadEvent.attempt n,
       LoadEvent.cleanup, LoadEvent.backoff 2, LoadEvent.attempt (max 1 (n - 8))] ∧
    attemptsOf (load_model n o1 o2 o3).2 = [n, n, max 1 (n - 8)] ∧
    cleanupCount (load_model n o1 o2 o3).2 = 2 ∧
    max 1 (n - 8) < n := by
  subst h1
  subst h2
  have hmax : max 1 (n - 8) < n := by omega
  cases o3 with
  | ok m => simp [load_model, hm, attemptsOf, cleanupCount, hmax]
  | error e => simp [load_model, hm, attemptsOf, cleanupCount, hmax]

/-- Witness for C3 at the default configuration `N_GPU_LAYERS = 28` with
out-of-memory failures on attempts 1 and 2 and success on attempt 3. -/
theorem llm_retry_then_degrade_witness :
    (load_model 28 (Except.error "out of memory") (Except.error "oom again")
        (Except.ok 0)).2 =
      [LoadEvent.attempt 28, LoadEvent.cleanup, LoadEvent.backoff 3, LoadEvent.attempt 28,
       LoadEvent.cleanup, LoadEvent.backoff 2, LoadEvent.attempt (max 1 (28 - 8))] ∧
    attemptsOf (load_model 28 (Except.error "out of memory") (Except.error "oom again")
        (Except.ok 0)).2 = [28, 28, max 1 (28 - 8)] ∧
    cleanupCount (load_model 28 (Except.error "out of memory") (Except.error "oom again")
        (Except.ok 0)).2 = 2 ∧
    max 1 ((28 : Int) - 8) < 28 :=
  llm_retry_then_degrade 28 _ _ _ "out of memory" "oom again" rfl (by decide) rfl (by decide)

/-- C4 counterexample: a load-attempt failure whose error does not match the
resource-exhaustion signatures does not always propagate immediately — when
the SECOND attempt fails with the unmatched error "invalid model config"
(attempt 1 having failed retryably), the loader still performs another
cleanup, a backoff, and a third load attempt at reduced demand, because only
the first failure is ever classified. -/
theorem llm_fatal_classification_counterexample :
    is_memory_error "invalid model config" = false ∧
    (load_model 28 (Except.error "out of memory") (Except.error "invalid model config")
        (Except.ok 0)).2 =
      [LoadEvent.attempt 28, LoadEvent.cleanup, LoadEvent.backoff 3, LoadEvent.attempt 28,
       LoadEvent.cleanup, LoadEvent.backoff 2, LoadEvent.attempt 20] ∧
    cleanupCount (load_model 28 (Except.error "out of memory")
        (Except.error "invalid model config") (Except.ok 0)).2 = 2 := by
  exact ⟨by decide, by decide, by decide⟩

/-- C4 as amended: only a FIRST-attempt failure is classified — a
first-attempt error not matching the resource-exhaustion signatures
propagates to the caller immediately, with no cleanup, no backoff wait and
no further load attempt (second- and third-attempt failures are not
reclassified). -/
theorem llm_first_attempt_fatal_propagates (n : Int) (o2 o3 : Except String Nat)
    (e1 : String) (hm : is_memory_error e1 = false) :
    load_model n (Except.error e1) o2 o3 =
      (Except.error e1, [LoadEvent.attempt n]) := by
  simp [load_model, hm]

/-- Witness for C4 as amended: a configuration error on attempt 1
propagates at once with a single attempt event. -/
theorem llm_first_attempt_fatal_propagates_witness :
    load_model 28 (Except.error "invalid rope scaling type") (Except.ok 0) (Except.ok 0) =
      (Except.error "invalid rope scaling type", [LoadEvent.attempt 28]) :=
  llm_first_attempt_fatal_propagates 28 _ _ "invalid rope scaling type" (by decide)

theorem flux_step_path {σ : Type} (fs : List String) (dir : String)
    (attach : String → Except String Unit) (i : Nat) (r : LoraReq σ) :
    (flux_step fs dir attach i r).path = r.path := by
  unfold flux_step
  split
  · split
    · cases attach (flux_resolve fs dir r.path) <;> rfl
    · rfl
  · rfl

theorem flux_step_failed_has_reason {σ : Type} (fs : List String) (dir : String)
    (attach : String → Except String Unit) (i : Nat) (r : LoraReq σ) :
    (flux_step fs dir attach i r).loaded = false →
    (flux_step fs dir attach i r).error.isSome = true := by
  unfold flux_step
  split
  · split
    · cases attach (flux_resolve fs dir r.path) <;> simp
    · simp
  · simp

theorem flux_loop_spec {σ : Type} (fs : List String) (dir : String)
    (attach : String → Except String Unit) :
    ∀ (i : Nat) (loras : List (LoraReq σ)),
      ((flux_loop fs dir attach i loras).1.map (fun e => e.path) =
        loras.map (fun r => r.path)) ∧
      ((flux_loop fs dir attach i loras).2.2 =
        ((flux_loop fs dir attach i loras).1.filter (fun e => e.loaded)).map
          (fun e => e.scale)) ∧
      (∀ e ∈ (flux_loop fs dir attach i loras).1,
        e.loaded = false → e.error.isSome = true)
  | _, [] => by simp [flux_loop]
  | i, r :: rest => by
    obtain ⟨ih1, ih2, ih3⟩ := flux_loop_spec fs dir attach (i + 1) rest
    cases hl : (flux_step fs dir attach i r).loaded with
    | true =>
      refine ⟨?_, ?_, ?_⟩
      · simp [flux_loop, hl, flux_step_path, ih1]
      · simp [flux_loop, hl, ih2, List.filter_cons]
      · intro e he
        rw [show (flux_loop fs dir attach i (r :: rest)).1 =
              flux_step fs dir attach i r :: (flux_loop fs dir attach (i + 1) rest).1
            by simp [flux_loop, hl]] at he
        rcases (List.mem_cons).1 he with h | h
        · subst h
          intro hfalse
          rw [hl] at hfalse
          cases hfalse
        · exact ih3 e h
    | false =>
      refine ⟨?_, ?_, ?_⟩
      · simp [flux_loop, hl, flux_step_path, ih1]
      · simp [flux_loop, hl, ih2, List.filter_cons]
      · intro e he
        rw [show (flux_loop fs dir attach i (r :: rest)).1 =
              flux_step fs dir attach i r :: (flux_loop fs dir attach (i + 1) rest).1
            by simp [flux_loop, hl]] at he
        rcases (List.mem_cons).1 he with h | h
        · subst h
          exact flux_step_failed_has_reason fs dir attach i r
        · exact ih3 e h

/-- C5 counterexample: in `DiffusionService._load_loras` (Modal service),
the request `[valid_a(0.8), missing_file(1.0), valid_b(0.5)]` does not yield
a 3-entry result list with the missing entry marked `loaded=false` — the
validation failure raises `FileNotFoundError` and aborts the whole batch, so
`valid_b` is never processed and no weight vector is applied at all. -/
theorem modal_lora_validation_aborts_batch :
    modal_load_loras modalFs okAttach (some partialLoras) =
      Except.error
        "LoRA file not found: missing_file.safetensors (checked /models/loras/missing_file.safetensors)" := by
  rfl

/-- C5 as amended (the claimed behavior holds for
`flux_service.load_multiple_loras`, not for the Modal loader): each
processed request yields exactly one result entry in request order, every
entry that failed validation or attachment is marked `loaded=false` with an
error message while the rest are still processed, and the combined weight
vector finally applied is exactly the scales of the `loaded=true` entries. -/
theorem flux_lora_partial_failure {σ : Type} (fs : List String) (dir : String)
    (attach : String → Except String Unit) (loras : List (LoraReq σ))
    (h : loras ≠ []) :
    ((load_multiple_loras fs dir attach loras).1.map (fun e => e.path) =
      ((if MAX_LORAS < loras.length then loras.take MAX_LORAS else loras).map
        (fun r => r.path))) ∧
    ((load_multiple_loras fs dir attach loras).2.2 =
      (((load_multiple_loras fs dir attach loras).1.filter (fun e => e.loaded)).map
        (fun e => e.scale))) ∧
    (∀ e ∈ (load_multiple_loras fs dir attach loras).1,
      e.loaded = false → e.error.isSome = true) := by
  have hne : loras.isEmpty = false := by
    cases loras with
    | nil => exact absurd rfl h
    | cons a l => rfl
  have hmain : load_multiple_loras fs dir attach loras =
      flux_loop fs dir attach 0
        (if MAX_LORAS < loras.length then loras.take MAX_LORAS else loras) := by
    unfold load_multiple_loras
    rw [hne]
    simp
  rw [hmain]
  exact flux_loop_spec fs dir attach 0 _

/-- Witness for C5 as amended, at the spec scenario: flags come out
`[true, false, true]` and the applied weight vector is `[8, 5]` (scales in
tenths: 0.8 and 0.5). -/
theorem flux_lora_partial_failure_witness :
    ((load_multiple_loras fluxFs "services/loras" okAttach partialLoras).2.2 =
      (((load_multiple_loras fluxFs "services/loras" okAttach partialLoras).1.filter
        (fun e => e.loaded)).map (fun e => e.scale))) ∧
    ((load_multiple_loras fluxFs "services/loras" okAttach partialLoras).1.map
        (fun e => e.loaded) = [true, false, true]) ∧
    ((load_multiple_loras fluxFs "services/loras" okAttach partialLoras).2.2 =
      [8, 5]) :=
  ⟨(flux_lora_partial_failure fluxFs "services/loras" okAttach partialLoras
      (by decide)).2.1, by decide, by decide⟩

/-- C6 counterexample: the Modal service does not truncate an over-long
adapter list to its first 4 entries — `GenerateRequest.validate_loras`
rejects a 6-entry request outright with `ValueError`, so no entry at all is
processed and no result list exists. -/
theorem modal_lora_cap_rejects :
    sixLoras.length = 6 ∧
    validate_loras (some sixLoras) = Except.error "Maximum 4 LoRAs allowed" := by
  exact ⟨rfl, rfl⟩

/-- C6 as amended (truncation holds for `flux_service.load_multiple_loras`;
the Modal service instead rejects over-long lists at validation): a list
longer than `MAX_LORAS = 4` is processed identically to its first 4 entries
in request order, the excess entries are absent from the result list, and
`validate_loras` raises on any list longer than 4. -/
theorem flux_lora_cap_truncates {σ : Type} (fs : List String) (dir : String)
    (attach : String → Except String Unit) (loras mloras : List (LoraReq σ))
    (h4 : MAX_LORAS < loras.length) (hm : MAX_LORAS < mloras.length) :
    (load_multiple_loras fs dir attach loras =
      load_multiple_loras fs dir attach (loras.take MAX_LORAS)) ∧
    ((load_multiple_loras fs dir attach loras).1.map (fun e => e.path) =
      (loras.take MAX_LORAS).map (fun r => r.path)) ∧
    (validate_loras (some mloras) = Except.error "Maximum 4 LoRAs allowed") := by
  have hne : loras.isEmpty = false := by
    cases loras with
    | nil => simp at h4
    | cons a l => rfl
  have hne2 : (loras.take MAX_LORAS).isEmpty = false := by
    cases loras with
    | nil => simp at h4
    | cons a l => rfl
  have hlen : ¬ MAX_LORAS < (loras.take MAX_LORAS).length := by
    simp [List.length_take]
  have h1 : load_multiple_loras fs dir attach loras =
      flux_loop fs dir attach 0 (loras.take MAX_LORAS) := by
    unfold load_multiple_loras
    rw [hne]
    simp [h4]
  have h2 : load_multiple_loras fs dir attach (loras.take MAX_LORAS) =
      flux_loop fs dir attach 0 (loras.take MAX_LORAS) := by
    unfold load_multiple_loras
    rw [hne2]
    simp [hlen]
  refine ⟨h1.trans h2.symm, ?_, ?_⟩
  · rw [h1]
    exact (flux_loop_spec fs dir attach 0 _).1
  · unfold validate_loras
    simp [hm]

/-- Witness for C6 as amended at a concrete 5-entry request. -/
theorem flux_lora_cap_truncates_witness :
    (load_multiple_loras ([] : List String) "services/loras" okAttach fiveLoras =
      load_multiple_loras ([] : List String) "services/loras" okAttach
        (fiveLoras.take MAX_LORAS)) ∧
    ((load_multiple_loras ([] : List String) "services/loras" okAttach fiveLoras).1.map
        (fun e => e.path) = (fiveLoras.take MAX_LORAS).map (fun r => r.path)) ∧
    (validate_loras (some fiveLoras) = Except.error "Maximum 4 LoRAs allowed") :=
  flux_lora_cap_truncates ([] : List String) "services/loras" okAttach fiveLoras fiveLoras
    (by decide) (by decide)

/-- C9 counterexample: with one detected face, successful enhancement and a
failing 2x upscale, `fix_faces` suffers an internal failure yet returns the
ENHANCED image (not the original input) with `applied=True` and no
`error` key — the failure is only recorded under `upscale_error` — so
"on any internal failure the returned image is the original input with
applied=False and error set" is false. -/
theorem fix_faces_upscale_failure_applied_true :
    (fix_faces upscaleFailEnv 5 1 2).1 = 6 ∧
    (fix_faces upscaleFailEnv 5 1 2).2.applied = some true ∧
    (fix_faces upscaleFailEnv 5 1 2).2.error = none ∧
    (fix_faces upscaleFailEnv 5 1 2).2.upscale_error = some "CUDA out of memory" := by
  decide

/-- C9 as amended: `fix_faces` always returns an (image, metadata) pair with
a definite `applied` flag; a failure that escapes the main body (parameter
validation, face detection) returns the original image with `applied=False`
and `error` set; but per-face enhancement failures and upscale failures are
absorbed — processing continues, `applied=True` and `error` stays unset
(an upscale failure is recorded as `upscale_error` only). -/
theorem fix_faces_total_and_failure_paths (env : FixEnv) (img : Nat)
    (fid : Rat) (up : Int) :
    ((fix_faces env img fid up).2.applied.isSome = true) ∧
    ((¬ (0 ≤ fid ∧ fid ≤ 1) ∨ ¬ (up = 1 ∨ up = 2)) →
      (fix_faces env img fid up).1 = img ∧
      (fix_faces env img fid up).2.applied = some false ∧
      (fix_faces env img fid up).2.error.isSome = true) ∧
    (∀ e, env.detect = Except.error e → (0 ≤ fid ∧ fid ≤ 1) → (up = 1 ∨ up = 2) →
      (fix_faces env img fid up).1 = img ∧
      (fix_faces env img fid up).2.applied = some false ∧
      (fix_faces env img fid up).2.error = some e) ∧
    (∀ faces, env.detect = Except.ok faces → faces ≠ [] →
      (0 ≤ fid ∧ fid ≤ 1) → (up = 1 ∨ up = 2) →
      (fix_faces env img fid up).2.applied = some true ∧
      (fix_faces env img fid up).2.error = none) := by
  refine ⟨?_, ?_, ?_, ?_⟩
  · simp only [fix_faces]
    repeat' split
    all_goals simp
  · intro hbad
    rcases hbad with hf | hu
    · simp [fix_faces, hf]
    · by_cases hfid : 0 ≤ fid ∧ fid ≤ 1
      · simp [fix_faces, hfid, hu]
      · simp [fix_faces, hfid]
  · intro e hd hfid hup
    simp [fix_faces, hfid, hup, hd]
  · intro faces hd hne hfid hup
    have hne2 : faces.isEmpty = false := by
      cases faces with
      | nil => exact absurd rfl hne
      | cons a l => rfl
    simp only [fix_faces, hd]
    simp only [hfid, hup, hne2]
    simp
    split
    · split <;> simp
    · simp

/-- Witness for C9 as amended: a failing face detector returns the original
image with `applied=False` and the detector error recorded. -/
theorem fix_faces_total_and_failure_paths_witness :
    (fix_faces detectFailEnv 3 1 1).1 = 3 ∧
    (fix_faces detectFailEnv 3 1 1).2.applied = some false ∧
    (fix_faces detectFailEnv 3 1 1).2.error = some "mediapipe failed to load" :=
  (fix_faces_total_and_failure_paths detectFailEnv 3 1 1).2.2.1
    "mediapipe failed to load" rfl (by decide) (Or.inl rfl)

/-- C10: only the first `get_face_fixer` call constructs a
`FaceFixingPipeline`; every later call returns that same instance and
ignores its own device argument (so a `cpu` call made after a `cuda` call
yields the instance built for `cuda`, whose stored device is `cuda` when
CUDA is available). -/
theorem get_face_fixer_singleton (cuda : Bool) (d1 d2 : String) :
    ((get_face_fixer cuda d2 (get_face_fixer cuda d1 none).2).1 =
      (get_face_fixer cuda d1 none).1) ∧
    ((get_face_fixer cuda d2 (get_face_fixer cuda d1 none).2).2 =
      (get_face_fixer cuda d1 none).2) ∧
    ((get_face_fixer cuda d1 none).1.device = if cuda then d1 else "cpu") :=
  ⟨rfl, rfl, rfl⟩
